import Mathlib

/-!
Verification of the monitoring aggregator (Monitoring_Automation.py).

The script polls three backends (Dante Domain Manager, Biamp SageVue,
Crestron Fusion), diffs each backend's freshly fetched fault set against a
stored per-backend list, pushes a formatted line for each newly seen fault
into a shared batch list (ALERTS_NOTIF_LIST), removes stored faults that are
no longer reported, updates Prometheus gauges, and then flushes the batch.

This file is a shallow embedding of that logic.  HTTP/SQL fetches and
outbound webhook posts are external collaborators: a fetch is modelled as an
Except value (error = the Python call raised), and a post is modelled by its
outcome.  All list manipulation, filtering, membership checks and the
iterate-while-remove loops are translated directly from the source.
-/

/-- Does the candidate list start with the pattern? -/
def leadMatch : List Char → List Char → Bool
  | [], _ => true
  | _ :: _, [] => false
  | a :: as, b :: bs => a == b && leadMatch as bs

/-- Does the pattern occur contiguously anywhere in the list? -/
def subSearch (pat : List Char) : List Char → Bool
  | [] => pat.isEmpty
  | c :: cs => leadMatch pat (c :: cs) || subSearch pat cs

/-- Python substring test: the expression `pat in s` on strings. -/
def strContains (s pat : String) : Bool :=
  subSearch pat.data s.data

/-- One fault produced by a backend extractor.  The key is what the backend
stores in its global list (a string for DDM/SageVue/Fusion-offline, a
name/id/message record for Fusion errors); category, device and message are
the three arguments the source passes to add_to_alert_notif_push. -/
structure Entry (κ : Type) where
  key : κ
  category : String
  device : String
  message : String
deriving DecidableEq

/-- The mute test of add_to_alert_notif_push: no keyword of
ALERTS_TEMP_IGNORE occurs in the device string nor in the message string. -/
def notMuted (mutes : List String) (device message : String) : Prop :=
  ¬ (mutes.any fun kw => strContains device kw)
    ∧ ¬ (mutes.any fun kw => strContains message kw)

instance (mutes : List String) (device message : String) :
    Decidable (notMuted mutes device message) := by
  unfold notMuted; infer_instance

/-- Source add_to_alert_notif_push: appends "category - device - message" to
the pending list unless a temporarily muted keyword occurs in the device or
the message. -/
def add_to_alert_notif_push (mutes : List String) (notif : List String)
    (category device message : String) : List String :=
  if notMuted mutes device message then
    notif ++ [category ++ " - " ++ device ++ " - " ++ message]
  else notif

/-- The append half of every backend's per-cycle diff, as each backend
implements it: walk the freshly extracted entries in order; an entry whose
key is already stored, or which the backend's hardcoded exclusion test
rejects, is skipped; otherwise its key is appended to the stored list and a
formatted line is pushed (subject to the mute filter).  Returns the grown
stored list, the entries appended this cycle, and the pushed lines. -/
def diffAppend {κ : Type} [DecidableEq κ] (excluded : Entry κ → Bool)
    (mutes : List String) :
    List (Entry κ) → List κ → List κ × List (Entry κ) × List String
  | [], stored => (stored, [], [])
  | e :: es, stored =>
    if e.key ∈ stored ∨ excluded e then
      diffAppend excluded mutes es stored
    else
      ((diffAppend excluded mutes es (stored ++ [e.key])).1,
       e :: (diffAppend excluded mutes es (stored ++ [e.key])).2.1,
       add_to_alert_notif_push mutes [] e.category e.device e.message
         ++ (diffAppend excluded mutes es (stored ++ [e.key])).2.2)

/-- CPython semantics of `for x in lst: if x not in current: lst.remove(x)`:
the list iterator keeps a position; after yielding lst[i] the position is
i+1, and removing the yielded element shifts the remainder left, so the
element that followed a removed one is never visited.  The fuel argument is
initialised to the list length, which bounds the number of iterations since
length minus position strictly decreases at every step; when fuel runs out
the position is already past the end, so the two stopping conditions agree.
Returns the surviving list and the removed (cleared) elements. -/
def pyRemoveGo {α : Type} [DecidableEq α] (current : List α) :
    Nat → Nat → List α → List α × List α
  | 0, _, lst => (lst, [])
  | fuel + 1, i, lst =>
    match lst.get? i with
    | none => (lst, [])
    | some x =>
      if x ∈ current then pyRemoveGo current fuel (i + 1) lst
      else
        ((pyRemoveGo current fuel (i + 1) (lst.erase x)).1,
         x :: (pyRemoveGo current fuel (i + 1) (lst.erase x)).2)

/-- The removal loops of ddm_thread, sage_vue_thread and fusion_thread:
iterate over the stored list, removing every element absent from the fresh
list, with CPython's remove-while-iterating behaviour. -/
def pyRemovePass {α : Type} [DecidableEq α] (current lst : List α) :
    List α × List α :=
  pyRemoveGo current lst.length 0 lst

theorem pyRemoveGo_all_kept {α : Type} [DecidableEq α] (current : List α) :
    ∀ (fuel : Nat), ∀ (i : Nat) (lst : List α), (∀ x ∈ lst, x ∈ current) →
      pyRemoveGo current fuel i lst = (lst, []) := by
  intro fuel
  induction fuel with
  | zero => intro i lst _; rfl
  | succ f ih =>
    intro i lst h
    simp only [pyRemoveGo]
    split
    · rfl
    · rename_i x hg
      rw [if_pos (h x (List.get?_mem hg))]
      exact ih (i + 1) lst h

theorem pyRemoveGo_subset {α : Type} [DecidableEq α] (current : List α) :
    ∀ (fuel : Nat), ∀ (i : Nat) (lst : List α),
      ∀ x ∈ (pyRemoveGo current fuel i lst).1, x ∈ lst := by
  intro fuel
  induction fuel with
  | zero => intro i lst x hx; exact hx
  | succ f ih =>
    intro i lst x hx
    simp only [pyRemoveGo] at hx
    split at hx
    · exact hx
    · rename_i y hg
      split at hx
      · exact ih (i + 1) lst x hx
      · exact List.erase_subset _ _ (ih (i + 1) (lst.erase y) x hx)

theorem pyRemoveGo_keeps_current {α : Type} [DecidableEq α]
    (current : List α) :
    ∀ (fuel : Nat), ∀ (i : Nat) (lst : List α), ∀ x ∈ lst, x ∈ current →
      x ∈ (pyRemoveGo current fuel i lst).1 := by
  intro fuel
  induction fuel with
  | zero => intro i lst x hx _; exact hx
  | succ f ih =>
    intro i lst x hx hc
    simp only [pyRemoveGo]
    split
    · exact hx
    · rename_i y hg
      split
      · exact ih (i + 1) lst x hx hc
      · rename_i hy
        have hxy : x ≠ y := fun h => hy (h ▸ hc)
        exact ih (i + 1) (lst.erase y) x
          ((List.mem_erase_of_ne hxy).mpr hx) hc

/-- Result of one backend's full per-cycle diff. -/
structure DiffResult (κ : Type) where
  stored : List κ
  newly : List (Entry κ)
  pushed : List String
  cleared : List κ
deriving DecidableEq

/-- One backend's complete diff step for a cycle: the append walk over the
fresh entries followed by the removal pass comparing the stored list against
the keys of everything freshly extracted (the backend's temp list). -/
def lifecycleDiff {κ : Type} [DecidableEq κ] (excluded : Entry κ → Bool)
    (mutes : List String) (current : List (Entry κ)) (stored : List κ) :
    DiffResult κ :=
  ⟨(pyRemovePass (current.map Entry.key)
      (diffAppend excluded mutes current stored).1).1,
   (diffAppend excluded mutes current stored).2.1,
   (diffAppend excluded mutes current stored).2.2,
   (pyRemovePass (current.map Entry.key)
      (diffAppend excluded mutes current stored).1).2⟩

/-- One row of the Fusion error/help queries: room name, room id, and the
message fetched by the follow-up query.  The source keeps these as 3-element
lists and compares them whole. -/
structure FusionRoomErr where
  name : String
  rid : String
  msg : String
deriving DecidableEq

/-- The mutable module-level state of the script that the claims touch:
the per-backend stored fault lists, the pending notification batch
(ALERTS_NOTIF_LIST), the mute keywords (ALERTS_TEMP_IGNORE), the SEND_ALERTS
flag, and the four Prometheus gauges. -/
structure MonState where
  ddmErrors : List String
  ddmOffline : List String
  sageErrors : List String
  fusionOffline : List String
  fusionErrors : List FusionRoomErr
  fusionHelp : List FusionRoomErr
  alertsNotif : List String
  mutes : List String
  sendAlerts : Bool
  ddmTotalGauge : Nat
  ddmMissingGauge : Nat
  sageTotalGauge : Nat
  sageMissingGauge : Nat
deriving DecidableEq

/-- Process-start state: empty lists, alerting disabled, gauges zero. -/
def initState : MonState :=
  ⟨[], [], [], [], [], [], [], [], false, 0, 0, 0, 0⟩

/-- Source BLACKLISTED_KEYWORDS. -/
def BLACKLISTED_KEYWORDS : List String :=
  ["ExampleKeyword1", "Test Devices"]

/-- One system returned by the SageVue systems endpoint: its Description,
its overall Status, and the Message of each listed fault. -/
structure SageSystem where
  description : String
  status : String
  faults : List String
deriving DecidableEq

/-- Result of the SageVue fetches: the parsed systems, plus the raw Errors
array of the devices endpoint (whose length feeds the missing-device
gauge). -/
structure SageData where
  systems : List SageSystem
  rawDeviceErrors : List String
deriving DecidableEq

/-- The fault entries the sage_vue_thread loop walks: for each system whose
Status is not Green, one entry per fault, keyed by
description - message, pushed as ("SageVue", description, message). -/
def sageEntries (systems : List SageSystem) : List (Entry String) :=
  systems.flatMap fun s =>
    if s.status = "Green" then []
    else s.faults.map fun m =>
      ⟨s.description ++ " - " ++ m, "SageVue", s.description, m⟩

/-- The hardcoded SageVue exclusion: faults whose message contains DAN1 or
NTP are neither stored nor pushed. -/
def sageExcluded (e : Entry String) : Bool :=
  strContains e.message "DAN1" || strContains e.message "NTP"

/-- Source sage_vue_thread.  The whole body sits inside one try/except, so a
failed fetch (modelled as Except.error) leaves every piece of state
untouched; on success the diff runs and both gauges are set, the
missing-device gauge from the raw Errors count of the separate devices
endpoint.  Session-id handling is part of the external fetch. -/
def sage_vue_thread (fetch : Except Unit SageData) (st : MonState) :
    MonState :=
  match fetch with
  | Except.error _ => st
  | Except.ok d =>
    { st with
      sageErrors :=
        (lifecycleDiff sageExcluded st.mutes (sageEntries d.systems)
          st.sageErrors).stored
      alertsNotif := st.alertsNotif ++
        (lifecycleDiff sageExcluded st.mutes (sageEntries d.systems)
          st.sageErrors).pushed
      sageTotalGauge :=
        (lifecycleDiff sageExcluded st.mutes (sageEntries d.systems)
          st.sageErrors).stored.length
      sageMissingGauge := d.rawDeviceErrors.length }

/-- One device of a DDM domain with its four status dimensions. -/
structure DdmDevice where
  name : String
  connectivity : String
  subscriptions : String
  latency : String
  clocking : String
deriving DecidableEq

/-- Accumulator for ddm_thread's device loop: the two temp lists (cleared at
the start of every cycle), the two stored lists, and ALERTS_NOTIF_LIST. -/
structure DdmAcc where
  tempOffline : List String
  tempErrors : List String
  offline : List String
  errors : List String
  notif : List String
deriving DecidableEq

/-- The body of ddm_thread's device loop.  In the source the subscription,
latency and clocking checks are indented inside the connectivity branch, so
they only run for a device whose connectivity is ERROR; the translation
keeps that nesting. -/
def ddm_process_device (mutes : List String) (domain : String)
    (dev : DdmDevice) (acc0 : DdmAcc) : DdmAcc :=
  if dev.connectivity = "ERROR" then
    let cs := domain ++ " - " ++ dev.name ++ " is offline."
    let acc1 : DdmAcc := { acc0 with tempOffline := acc0.tempOffline ++ [cs] }
    let acc2 : DdmAcc :=
      if cs ∈ acc1.offline then acc1
      else { acc1 with
        offline := acc1.offline ++ [cs]
        notif := add_to_alert_notif_push mutes acc1.notif "DDM" domain
          (dev.name ++ " is offline.") }
    let ss := domain ++ " - " ++ dev.name ++ " has a subscription error."
    let acc3 : DdmAcc :=
      if dev.subscriptions = "ERROR" then
        let acc3a : DdmAcc := { acc2 with tempErrors := acc2.tempErrors ++ [ss] }
        if ss ∈ acc3a.errors then acc3a
        else { acc3a with
          errors := acc3a.errors ++ [ss]
          notif := add_to_alert_notif_push mutes acc3a.notif "DDM" domain
            (dev.name ++ " has a subscription error.") }
      else acc2
    let ls := domain ++ " - " ++ dev.name ++ " has a latency error."
    let acc4 : DdmAcc :=
      if dev.latency = "ERROR" then
        let acc4a : DdmAcc := { acc3 with tempErrors := acc3.tempErrors ++ [ls] }
        if ls ∈ acc4a.errors then acc4a
        else { acc4a with
          errors := acc4a.errors ++ [ls]
          notif := add_to_alert_notif_push mutes acc4a.notif "DDM" domain
            (dev.name ++ " has a latency error.") }
      else acc3
    let ks := domain ++ " - " ++ dev.name ++ " has a clocking error."
    if dev.clocking = "ERROR" then
      let acc5a : DdmAcc := { acc4 with tempErrors := acc4.tempErrors ++ [ks] }
      if ks ∈ acc5a.errors then acc5a
      else { acc5a with
        errors := acc5a.errors ++ [ks]
        notif := add_to_alert_notif_push mutes acc5a.notif "DDM" domain
          (dev.name ++ " has a clocking error.") }
    else acc4
  else acc0

/-- Source ddm_thread.  The temp lists start the cycle cleared; the domain
and device loops run inside a try, so a failed query (Except.error, taken
to fail before any device is processed) skips the whole append phase; the
two removal loops and both gauge updates run unconditionally afterwards. -/
def ddm_thread (fetch : Except Unit (List (String × List DdmDevice)))
    (st : MonState) : MonState :=
  let acc :=
    match fetch with
    | Except.error _ =>
      DdmAcc.mk [] [] st.ddmOffline st.ddmErrors st.alertsNotif
    | Except.ok domains =>
      domains.foldl
        (fun (a : DdmAcc) (dom : String × List DdmDevice) => dom.2.foldl
          (fun a2 dev => ddm_process_device st.mutes dom.1 dev a2) a)
        (DdmAcc.mk [] [] st.ddmOffline st.ddmErrors st.alertsNotif)
  { st with
    ddmErrors := (pyRemovePass acc.tempErrors acc.errors).1
    ddmOffline := (pyRemovePass acc.tempOffline acc.offline).1
    alertsNotif := acc.notif
    ddmMissingGauge := (pyRemovePass acc.tempOffline acc.offline).1.length
    ddmTotalGauge := (pyRemovePass acc.tempErrors acc.errors).1.length }

/-- Result of the three Fusion SQL queries (with their follow-up message
queries folded in): offline room names, error rooms, help-request rooms. -/
structure FusionData where
  offlineRooms : List String
  errorRooms : List FusionRoomErr
  helpRooms : List FusionRoomErr
deriving DecidableEq

/-- Entry for a room the offline query returned: keyed and pushed by its
room name. -/
def fusionOfflineEntry (room : String) : Entry String :=
  ⟨room, "Fusion", room, "Room has gone offline"⟩

/-- Fusion offline exclusion: room names containing a blacklisted keyword
are neither stored nor pushed. -/
def fusionOfflineExcluded (e : Entry String) : Bool :=
  BLACKLISTED_KEYWORDS.any fun kw => strContains e.key kw

/-- Entry for a room of the error query: keyed by the whole
name/id/message row, pushed as ("Fusion", name, message). -/
def fusionErrEntry (r : FusionRoomErr) : Entry FusionRoomErr :=
  ⟨r, "Fusion", r.name, r.msg⟩

/-- Fusion error exclusion: detail messages containing "1:notice" or
"0:ok" are neither stored nor pushed. -/
def fusionErrExcluded (e : Entry FusionRoomErr) : Bool :=
  strContains e.message "1:notice" || strContains e.message "0:ok"

/-- The help-request block of fusion_thread: rooms not yet listed are
appended (each triggering an immediate send_help_request, which is external
I/O), then the remove-while-iterating pass drops rooms no longer present. -/
def fusionHelpStep (current stored : List FusionRoomErr) :
    List FusionRoomErr :=
  (pyRemovePass current
    (current.foldl (fun acc r => if r ∈ acc then acc else acc ++ [r])
      stored)).1

/-- The body of fusion_thread after a successful database fetch: the
offline-room diff (with the name blacklist), the error-room diff (with the
notice/ok exclusion), and the help-request bookkeeping.  fusion_thread sets
no gauges. -/
def fusionApply (d : FusionData) (st : MonState) : MonState :=
  { st with
    fusionOffline :=
      (lifecycleDiff fusionOfflineExcluded st.mutes
        (d.offlineRooms.map fusionOfflineEntry) st.fusionOffline).stored
    fusionErrors :=
      (lifecycleDiff fusionErrExcluded st.mutes
        (d.errorRooms.map fusionErrEntry) st.fusionErrors).stored
    fusionHelp := fusionHelpStep d.helpRooms st.fusionHelp
    alertsNotif := st.alertsNotif ++
      (lifecycleDiff fusionOfflineExcluded st.mutes
        (d.offlineRooms.map fusionOfflineEntry) st.fusionOffline).pushed ++
      (lifecycleDiff fusionErrExcluded st.mutes
        (d.errorRooms.map fusionErrEntry) st.fusionErrors).pushed }

/-- Source fusion_thread.  Unlike the other two backend threads its body has
no try/except of its own: a failing database connection raises out of the
function (Except.error) before any state is touched. -/
def fusion_thread (fetch : Except Unit FusionData) (st : MonState) :
    Except Unit MonState :=
  match fetch with
  | Except.error e => Except.error e
  | Except.ok d => Except.ok (fusionApply d st)

/-- The per-cycle backend section of prog_thread: one shared try wraps the
calls fusion_thread(); sage_vue_thread(); ddm_thread() in that order, and
its except handler only logs.  An exception escaping fusion_thread therefore
skips the remaining two backends for the cycle. -/
def runCycle (fusionFetch : Except Unit FusionData)
    (sageFetch : Except Unit SageData)
    (ddmFetch : Except Unit (List (String × List DdmDevice)))
    (st : MonState) : MonState :=
  match fusion_thread fusionFetch st with
  | Except.error _ => st
  | Except.ok st1 => ddm_thread ddmFetch (sage_vue_thread sageFetch st1)

/-- Source send_alert_notif.  When SEND_ALERTS is set and lines are pending
it posts the batch; the clear of ALERTS_NOTIF_LIST stands after the post
with no try around it, so a post that raises (postRaises) aborts the
function before the clear, while a post that merely returns an HTTP failure
response raises nothing and the clear runs.  Except.ok carries the list
after the call, Except.error means the exception propagated. -/
def send_alert_notif (postRaises : Bool) (sendAlerts : Bool)
    (notif : List String) : Except Unit (List String) :=
  if sendAlerts ∧ notif.length > 0 then
    if postRaises then Except.error () else Except.ok []
  else Except.ok []

/-- One iteration of prog_thread's while-loop: the guarded backend section,
then send_alert_notif outside any try.  Except.ok means the loop reaches its
sleep and continues; Except.error st means the exception escaped
prog_thread, killing the poll loop with the state frozen at st. -/
def pollIteration (fusionFetch : Except Unit FusionData)
    (sageFetch : Except Unit SageData)
    (ddmFetch : Except Unit (List (String × List DdmDevice)))
    (postRaises : Bool) (st : MonState) : Except MonState MonState :=
  match send_alert_notif postRaises
      (runCycle fusionFetch sageFetch ddmFetch st).sendAlerts
      (runCycle fusionFetch sageFetch ddmFetch st).alertsNotif with
  | Except.ok cleared =>
    Except.ok { runCycle fusionFetch sageFetch ddmFetch st with
      alertsNotif := cleared }
  | Except.error _ =>
    Except.error (runCycle fusionFetch sageFetch ddmFetch st)

/-- Python str.isnumeric restricted to ASCII arguments: true exactly for a
nonempty string of digit characters.  (Full Unicode isnumeric also accepts
exotic numeric characters; every input the claims involve is ASCII.) -/
def pyIsNumeric (s : String) : Bool :=
  !s.isEmpty && s.data.all fun c => c.isDigit

/-- Observable outcome of a mute request: either the invalid-time-parameter
notification, or the acknowledgement path. -/
inductive MuteOutcome
  | validationError
  | success
deriving DecidableEq

/-- Source mute_thread up to its timed wait: a non-numeric duration string
sends the invalid-parameter notification and touches nothing; otherwise the
keyword is appended to ALERTS_TEMP_IGNORE (and removed again only after the
sleep expires).  The returned list is ALERTS_TEMP_IGNORE during the active
period of the mute. -/
def mute_thread (keyword duration : String) (tempIgnore : List String) :
    MuteOutcome × List String :=
  if ¬ pyIsNumeric duration then
    (MuteOutcome.validationError, tempIgnore)
  else
    (MuteOutcome.success, tempIgnore ++ [keyword])

/-- The element-joining loops of the status-message functions: items
separated by a carriage return, no trailing separator. -/
def joinCR : List String → String
  | [] => ""
  | [x] => x
  | x :: y :: xs => x ++ "\r" ++ joinCR (y :: xs)

/-- Source get_ddm_status_message: the error lines then the offline lines
(each group joined by carriage returns), or the no-errors sentence when both
lists are empty. -/
def get_ddm_status_message (st : MonState) : String :=
  if st.ddmErrors.length = 0 ∧ st.ddmOffline.length = 0 then
    "No errors to report."
  else joinCR st.ddmErrors ++ joinCR st.ddmOffline

/-- Source get_sage_vue_status_message. -/
def get_sage_vue_status_message (st : MonState) : String :=
  if st.sageErrors.length = 0 then "No errors to report."
  else joinCR st.sageErrors

/-- Source get_fusion_status_message: error rooms as "name - message", then
offline rooms as "name - Room is currently offline". -/
def get_fusion_status_message (st : MonState) : String :=
  if st.fusionErrors.length = 0 ∧ st.fusionOffline.length = 0 then
    "No errors to report."
  else
    joinCR (st.fusionErrors.map (fun r => r.name ++ " - " ++ r.msg)
      ++ st.fusionOffline.map fun r => r ++ " - Room is currently offline")

/-- The three sections of the start-of-day report message. -/
structure Report where
  sage : String
  ddm : String
  fusion : String
deriving DecidableEq

/-- Source run_report: reads the three status messages and posts one
multi-section message to the daily-report channel.  Its body performs no
assignment to any module-level state, so the translation returns the state
it was given together with the composed sections. -/
def run_report (st : MonState) : MonState × Report :=
  (st, ⟨get_sage_vue_status_message st, get_ddm_status_message st,
    get_fusion_status_message st⟩)

/-- Iterated cycles of one backend's diff step: each cycle brings its fresh
entries and the mute keywords active at that moment; the stored list carries
over, and the pushed lines of all cycles are accumulated (the real batch
list is flushed between cycles, so this accumulation is the set of every
notification line ever emitted). -/
def runDiffCycles {κ : Type} [DecidableEq κ] (excluded : Entry κ → Bool) :
    List (List (Entry κ) × List String) → List κ → List κ × List String
  | [], stored => (stored, [])
  | c :: rest, stored =>
    ((runDiffCycles excluded rest
        (lifecycleDiff excluded c.2 c.1 stored).stored).1,
     (lifecycleDiff excluded c.2 c.1 stored).pushed ++
       (runDiffCycles excluded rest
         (lifecycleDiff excluded c.2 c.1 stored).stored).2)

/-- Shape of the string-keyed entries the DDM and SageVue loops feed their
diff steps: a fixed category, and a stored key that is the pushed device
argument joined to the pushed message by the same separator, so the pushed
line is the category joined to the key. -/
def keyedEntryWf (cat : String) (e : Entry String) : Prop :=
  e.category = cat ∧ e.key = e.device ++ " - " ++ e.message

instance (cat : String) (e : Entry String) :
    Decidable (keyedEntryWf cat e) := by
  unfold keyedEntryWf; infer_instance

/-- The notification line an entry produces when it is pushed. -/
def entryLine {κ : Type} (e : Entry κ) : String :=
  e.category ++ " - " ++ e.device ++ " - " ++ e.message

theorem string_append_cancel_left {a b c : String} (h : a ++ b = a ++ c) :
    b = c := by
  have hd := congrArg String.data h
  simp only [String.data_append] at hd
  exact String.ext (List.append_cancel_left hd)

theorem entryLine_of_wf (cat : String) (e : Entry String)
    (h : keyedEntryWf cat e) :
    entryLine e = (cat ++ " - ") ++ e.key := by
  unfold entryLine
  rw [h.1, h.2]
  simp [String.append_assoc]

theorem diffAppend_stored_eq {κ : Type} [DecidableEq κ]
    (excluded : Entry κ → Bool) (mutes : List String)
    (es : List (Entry κ)) :
    ∀ stored : List κ,
      (diffAppend excluded mutes es stored).1
        = stored
          ++ ((diffAppend excluded mutes es stored).2.1).map Entry.key := by
  induction es with
  | nil => intro stored; simp [diffAppend]
  | cons e es ih =>
    intro stored
    simp only [diffAppend]
    split
    · exact ih stored
    · simp only [List.map_cons]
      rw [ih (stored ++ [e.key])]
      simp

theorem diffAppend_newly_key_fresh {κ : Type} [DecidableEq κ]
    (excluded : Entry κ → Bool) (mutes : List String)
    (es : List (Entry κ)) :
    ∀ stored : List κ, ∀ x ∈ (diffAppend excluded mutes es stored).2.1,
      x.key ∉ stored := by
  induction es with
  | nil => intro stored x hx; simp [diffAppend] at hx
  | cons e es ih =>
    intro stored x hx
    simp only [diffAppend] at hx
    split at hx
    · exact ih stored x hx
    · rename_i h
      rcases List.mem_cons.mp hx with rfl | hx2
      · intro hmem; exact h (Or.inl hmem)
      · intro hmem
        exact ih (stored ++ [e.key]) x hx2 (List.mem_append_left _ hmem)

theorem diffAppend_newly_mem {κ : Type} [DecidableEq κ]
    (excluded : Entry κ → Bool) (mutes : List String)
    (es : List (Entry κ)) :
    ∀ stored : List κ, ∀ x ∈ (diffAppend excluded mutes es stored).2.1,
      x ∈ es := by
  induction es with
  | nil => intro stored x hx; simp [diffAppend] at hx
  | cons e es ih =>
    intro stored x hx
    simp only [diffAppend] at hx
    split at hx
    · exact List.mem_cons_of_mem _ (ih stored x hx)
    · rcases List.mem_cons.mp hx with rfl | hx2
      · exact List.mem_cons_self _ _
      · exact List.mem_cons_of_mem _ (ih (stored ++ [e.key]) x hx2)

theorem diffAppend_newly_not_excluded {κ : Type} [DecidableEq κ]
    (excluded : Entry κ → Bool) (mutes : List String)
    (es : List (Entry κ)) :
    ∀ stored : List κ, ∀ x ∈ (diffAppend excluded mutes es stored).2.1,
      excluded x = false := by
  induction es with
  | nil => intro stored x hx; simp [diffAppend] at hx
  | cons e es ih =>
    intro stored x hx
    simp only [diffAppend] at hx
    split at hx
    · exact ih stored x hx
    · rename_i h
      rcases List.mem_cons.mp hx with rfl | hx2
      · exact Bool.eq_false_iff.mpr fun hb => h (Or.inr hb)
      · exact ih (stored ++ [e.key]) x hx2

theorem diffAppend_count_of_mem {κ : Type} [DecidableEq κ]
    (excluded : Entry κ → Bool) (mutes : List String)
    (es : List (Entry κ)) (stored : List κ) (k : κ) (hk : k ∈ stored) :
    ((diffAppend excluded mutes es stored).2.1.map Entry.key).count k
      = 0 := by
  rw [List.count_eq_zero]
  intro hmem
  rcases List.mem_map.mp hmem with ⟨x, hx, rfl⟩
  exact diffAppend_newly_key_fresh excluded mutes es stored x hx hk

theorem diffAppend_count_of_new {κ : Type} [DecidableEq κ]
    (excluded : Entry κ → Bool) (mutes : List String)
    (es : List (Entry κ)) (k : κ) :
    ∀ stored : List κ, k ∉ stored → k ∈ es.map Entry.key →
      (∀ e ∈ es, excluded e = false) →
      ((diffAppend excluded mutes es stored).2.1.map Entry.key).count k
        = 1 := by
  induction es with
  | nil => intro stored _ hmem _; simp at hmem
  | cons e es ih =>
    intro stored hk hmem hex
    by_cases hek : e.key = k
    · have hcond : ¬ (e.key ∈ stored ∨ excluded e = true) := by
        rintro (h1 | h1)
        · exact hk (hek ▸ h1)
        · rw [hex e (List.mem_cons_self _ _)] at h1; cases h1
      simp only [diffAppend]
      rw [if_neg hcond]
      have h0 : ((diffAppend excluded mutes es
          (stored ++ [e.key])).2.1.map Entry.key).count k = 0 :=
        diffAppend_count_of_mem excluded mutes es (stored ++ [e.key]) k
          (by rw [hek]; exact List.mem_append_right _ (List.mem_singleton.mpr rfl))
      rw [hek] at h0
      simp [List.count_cons, hek, h0]
    · have hmem2 : k ∈ es.map Entry.key := by
        rcases List.mem_map.mp hmem with ⟨x, hx, rfl⟩
        rcases List.mem_cons.mp hx with rfl | hx2
        · exact absurd rfl hek
        · exact List.mem_map.mpr ⟨x, hx2, rfl⟩
      simp only [diffAppend]
      split
      · exact ih stored hk hmem2 fun x hx =>
          hex x (List.mem_cons_of_mem _ hx)
      · have hk2 : k ∉ stored ++ [e.key] := by
          intro hm
          rcases List.mem_append.mp hm with hm1 | hm1
          · exact hk hm1
          · exact hek (List.mem_singleton.mp hm1).symm
        have h1 := ih (stored ++ [e.key]) hk2 hmem2 fun x hx =>
          hex x (List.mem_cons_of_mem _ hx)
        simp [List.count_cons, hek, h1]

theorem diffAppend_pushed_no_mutes {κ : Type} [DecidableEq κ]
    (excluded : Entry κ → Bool) (es : List (Entry κ)) :
    ∀ stored : List κ,
      (diffAppend excluded [] es stored).2.2
        = ((diffAppend excluded [] es stored).2.1).map entryLine := by
  induction es with
  | nil => intro stored; simp [diffAppend]
  | cons e es ih =>
    intro stored
    simp only [diffAppend]
    split
    · exact ih stored
    · simp only [List.map_cons]
      rw [ih (stored ++ [e.key])]
      simp [add_to_alert_notif_push, notMuted, entryLine]

theorem diffAppend_pushed_mem {κ : Type} [DecidableEq κ]
    (excluded : Entry κ → Bool) (mutes : List String)
    (es : List (Entry κ)) :
    ∀ stored : List κ, ∀ l ∈ (diffAppend excluded mutes es stored).2.2,
      ∃ x ∈ (diffAppend excluded mutes es stored).2.1,
        l = entryLine x ∧ notMuted mutes x.device x.message := by
  induction es with
  | nil => intro stored l hl; simp [diffAppend] at hl
  | cons e es ih =>
    intro stored l hl
    simp only [diffAppend] at hl ⊢
    split at hl
    · rename_i h
      rw [if_pos h]
      exact ih stored l hl
    · rename_i h
      rw [if_neg h]
      rcases List.mem_append.mp hl with hl1 | hl2
      · unfold add_to_alert_notif_push at hl1
        split at hl1
        · rename_i hnm
          simp only [List.nil_append, List.mem_singleton] at hl1
          exact ⟨e, List.mem_cons_self _ _, hl1 ▸ rfl, hnm⟩
        · simp at hl1
      · rcases ih (stored ++ [e.key]) l hl2 with ⟨x, hx, hline, hnm⟩
        exact ⟨x, List.mem_cons_of_mem _ hx, hline, hnm⟩

theorem diffAppend_all_stored {κ : Type} [DecidableEq κ]
    (excluded : Entry κ → Bool) (mutes : List String)
    (es : List (Entry κ)) (stored : List κ)
    (h : ∀ e ∈ es, e.key ∈ stored) :
    diffAppend excluded mutes es stored = (stored, [], []) := by
  induction es with
  | nil => simp [diffAppend]
  | cons e es ih =>
    simp only [diffAppend]
    rw [if_pos (Or.inl (h e (List.mem_cons_self _ _)))]
    exact ih fun x hx => h x (List.mem_cons_of_mem _ hx)

theorem diffAppend_all_new {κ : Type} [DecidableEq κ]
    (excluded : Entry κ → Bool) (mutes : List String)
    (es : List (Entry κ)) :
    ∀ stored : List κ, (∀ e ∈ es, e.key ∉ stored) →
      (es.map Entry.key).Nodup → (∀ e ∈ es, excluded e = false) →
      (diffAppend excluded mutes es stored).2.1 = es := by
  induction es with
  | nil => intro stored _ _ _; simp [diffAppend]
  | cons e es ih =>
    intro stored hfresh hnd hex
    have hcond : ¬ (e.key ∈ stored ∨ excluded e = true) := by
      rintro (h1 | h1)
      · exact hfresh e (List.mem_cons_self _ _) h1
      · rw [hex e (List.mem_cons_self _ _)] at h1; cases h1
    simp only [diffAppend]
    rw [if_neg hcond]
    simp only [List.map_cons, List.nodup_cons] at hnd
    rw [ih (stored ++ [e.key]) ?_ hnd.2
      fun x hx => hex x (List.mem_cons_of_mem _ hx)]
    intro x hx hmem
    rcases List.mem_append.mp hmem with hm | hm
    · exact hfresh x (List.mem_cons_of_mem _ hx) hm
    · exact hnd.1 (List.mem_singleton.mp hm ▸
        List.mem_map.mpr ⟨x, hx, rfl⟩)

theorem lifecycleDiff_keeps_key {κ : Type} [DecidableEq κ]
    (excluded : Entry κ → Bool) (mutes : List String)
    (current : List (Entry κ)) (stored : List κ) (k : κ)
    (hk : k ∈ stored) (hc : k ∈ current.map Entry.key) :
    k ∈ (lifecycleDiff excluded mutes current stored).stored := by
  have h1 : k ∈ (diffAppend excluded mutes current stored).1 := by
    rw [diffAppend_stored_eq]
    exact List.mem_append_left _ hk
  exact pyRemoveGo_keeps_current (current.map Entry.key) _ 0 _ k h1 hc

theorem lifecycleDiff_adds_key {κ : Type} [DecidableEq κ]
    (excluded : Entry κ → Bool) (mutes : List String)
    (current : List (Entry κ)) (stored : List κ) (k : κ)
    (hex : ∀ e ∈ current, excluded e = false)
    (hc : k ∈ current.map Entry.key) :
    k ∈ (lifecycleDiff excluded mutes current stored).stored := by
  by_cases hk : k ∈ stored
  · exact lifecycleDiff_keeps_key excluded mutes current stored k hk hc
  · have hcount :=
      diffAppend_count_of_new excluded mutes current k stored hk hc hex
    have h2 : k ∈ ((diffAppend excluded mutes current stored).2.1.map
        Entry.key) := by
      rw [← List.count_pos_iff, hcount]
      omega
    have h1 : k ∈ (diffAppend excluded mutes current stored).1 := by
      rw [diffAppend_stored_eq]
      exact List.mem_append_right _ h2
    exact pyRemoveGo_keeps_current (current.map Entry.key) _ 0 _ k h1 hc

theorem lifecycleDiff_no_line_of_stored (cat : String)
    (excluded : Entry String → Bool) (mutes : List String)
    (current : List (Entry String)) (stored : List String) (k : String)
    (hk : k ∈ stored) (hwf : ∀ x ∈ current, keyedEntryWf cat x) :
    (cat ++ " - " ++ k) ∉ (lifecycleDiff excluded mutes current stored).pushed := by
  intro hmem
  rcases diffAppend_pushed_mem excluded mutes current stored _ hmem with
    ⟨x, hx, hline, _⟩
  have hwx := hwf x (diffAppend_newly_mem excluded mutes current stored x hx)
  rw [entryLine_of_wf cat x hwx] at hline
  have hkey : k = x.key := string_append_cancel_left hline
  exact diffAppend_newly_key_fresh excluded mutes current stored x hx
    (hkey ▸ hk)

theorem lifecycleDiff_no_line_of_blocked (cat : String)
    (excluded : Entry String → Bool) (mutes : List String)
    (current : List (Entry String)) (stored : List String) (k : String)
    (hwf : ∀ x ∈ current, keyedEntryWf cat x)
    (hblock : ∀ x ∈ current, x.key = k →
      ¬ notMuted mutes x.device x.message) :
    (cat ++ " - " ++ k) ∉ (lifecycleDiff excluded mutes current stored).pushed := by
  intro hmem
  rcases diffAppend_pushed_mem excluded mutes current stored _ hmem with
    ⟨x, hx, hline, hnm⟩
  have hxc := diffAppend_newly_mem excluded mutes current stored x hx
  have hwx := hwf x hxc
  rw [entryLine_of_wf cat x hwx] at hline
  have hkey : k = x.key := string_append_cancel_left hline
  exact hblock x hxc hkey.symm hnm

theorem runDiffCycles_never_key (cat : String)
    (excluded : Entry String → Bool)
    (cycles : List (List (Entry String) × List String)) :
    ∀ (stored : List String) (k : String), k ∈ stored →
      (∀ p ∈ cycles, ∀ x ∈ p.1, keyedEntryWf cat x) →
      (∀ p ∈ cycles, k ∈ p.1.map Entry.key) →
      k ∈ (runDiffCycles excluded cycles stored).1 ∧
        (cat ++ " - " ++ k) ∉ (runDiffCycles excluded cycles stored).2 := by
  induction cycles with
  | nil =>
    intro stored k hk _ _
    exact ⟨hk, by simp [runDiffCycles]⟩
  | cons c rest ih =>
    intro stored k hk hwf hact
    have hk1 : k ∈ (lifecycleDiff excluded c.2 c.1 stored).stored :=
      lifecycleDiff_keeps_key excluded c.2 c.1 stored k hk
        (hact c (List.mem_cons_self _ _))
    have hrest := ih (lifecycleDiff excluded c.2 c.1 stored).stored k hk1
      (fun p hp => hwf p (List.mem_cons_of_mem _ hp))
      (fun p hp => hact p (List.mem_cons_of_mem _ hp))
    refine ⟨hrest.1, ?_⟩
    simp only [runDiffCycles, List.mem_append]
    rintro (h1 | h2)
    · exact lifecycleDiff_no_line_of_stored cat excluded c.2 c.1 stored k hk
        (hwf c (List.mem_cons_self _ _)) h1
    · exact hrest.2 h2

/-- Claim C1: in one cycle's diff step (over the extractor's notifiable
entries, with no mute keyword active), every key present in the fresh set
but absent from the previous stored set is appended to the newly-active
output exactly once, no key present in both is appended at all, and the
notification lines pushed are exactly the formatted lines of the
newly-active entries. -/
theorem diff_newly_active_exactly_once {κ : Type} [DecidableEq κ]
    (excluded : Entry κ → Bool) (current : List (Entry κ))
    (previous : List κ) (k : κ)
    (hex : ∀ e ∈ current, excluded e = false) :
    (k ∈ current.map Entry.key → k ∉ previous →
      ((lifecycleDiff excluded [] current previous).newly.map
        Entry.key).count k = 1)
    ∧ (k ∈ previous →
      ((lifecycleDiff excluded [] current previous).newly.map
        Entry.key).count k = 0)
    ∧ (lifecycleDiff excluded [] current previous).pushed
        = (lifecycleDiff excluded [] current previous).newly.map entryLine := by
  refine ⟨?_, ?_, ?_⟩
  · intro h1 h2
    exact diffAppend_count_of_new excluded [] current k previous h2 h1 hex
  · intro h1
    exact diffAppend_count_of_mem excluded [] current previous k h1
  · exact diffAppend_pushed_no_mutes excluded current previous

theorem diff_newly_active_exactly_once_witness :
    ((lifecycleDiff (fun _ => false) []
        [Entry.mk "b" "DDM" "d1" "m1", Entry.mk "a" "DDM" "d2" "m2"]
        ["a"]).newly.map Entry.key).count "b" = 1
    ∧ ((lifecycleDiff (fun _ => false) []
        [Entry.mk "b" "DDM" "d1" "m1", Entry.mk "a" "DDM" "d2" "m2"]
        ["a"]).newly.map Entry.key).count "a" = 0 := by
  constructor
  · exact (diff_newly_active_exactly_once (fun _ => false)
      [Entry.mk "b" "DDM" "d1" "m1", Entry.mk "a" "DDM" "d2" "m2"]
      ["a"] "b" (fun _ _ => rfl)).1 (by decide) (by decide)
  · exact (diff_newly_active_exactly_once (fun _ => false)
      [Entry.mk "b" "DDM" "d1" "m1", Entry.mk "a" "DDM" "d2" "m2"]
      ["a"] "a" (fun _ _ => rfl)).2.1 (by decide)

/-- Claim C6: a diff step against an empty previous stored set classifies
every element of a non-empty fresh fault set S (duplicate-free keys, none
hit by the backend's exclusion test) as newly-active: newly equals S, the
stored list becomes the keys of S, and nothing is cleared. -/
theorem diff_empty_previous_all_newly_active {κ : Type} [DecidableEq κ]
    (excluded : Entry κ → Bool) (mutes : List String) (S : List (Entry κ))
    (hne : S ≠ []) (hnd : (S.map Entry.key).Nodup)
    (hex : ∀ e ∈ S, excluded e = false) :
    (lifecycleDiff excluded mutes S []).newly = S
    ∧ (lifecycleDiff excluded mutes S []).stored = S.map Entry.key
    ∧ (lifecycleDiff excluded mutes S []).cleared = [] := by
  have hnew : (diffAppend excluded mutes S []).2.1 = S :=
    diffAppend_all_new excluded mutes S [] (by simp) hnd hex
  have hst : (diffAppend excluded mutes S []).1 = S.map Entry.key := by
    rw [diffAppend_stored_eq, hnew]
    simp
  have hrp : pyRemovePass (S.map Entry.key)
      (diffAppend excluded mutes S []).1 = (S.map Entry.key, []) := by
    unfold pyRemovePass
    rw [hst]
    exact pyRemoveGo_all_kept _ _ 0 _ (fun x hx => hx)
  exact ⟨hnew, congrArg Prod.fst hrp, congrArg Prod.snd hrp⟩

theorem diff_empty_previous_all_newly_active_witness :
    (lifecycleDiff (fun _ => false) []
        [Entry.mk "k1" "DDM" "d1" "m1", Entry.mk "k2" "DDM" "d2" "m2"]
        []).newly
      = [Entry.mk "k1" "DDM" "d1" "m1", Entry.mk "k2" "DDM" "d2" "m2"]
    ∧ (lifecycleDiff (fun _ => false) []
        [Entry.mk "k1" "DDM" "d1" "m1", Entry.mk "k2" "DDM" "d2" "m2"]
        []).cleared = [] := by
  have h := diff_empty_previous_all_newly_active (fun _ => false) []
    [Entry.mk "k1" "DDM" "d1" "m1", Entry.mk "k2" "DDM" "d2" "m2"]
    (by decide) (by decide) (fun _ _ => rfl)
  exact ⟨h.1, h.2.2⟩

/-- Claim C7: a diff step whose previous stored set already holds exactly
the keys of the fresh set S reports nothing newly-active, clears nothing,
pushes nothing, and leaves the stored set equal to the keys of S. -/
theorem diff_identical_sets_idempotent {κ : Type} [DecidableEq κ]
    (excluded : Entry κ → Bool) (mutes : List String)
    (S : List (Entry κ)) :
    (lifecycleDiff excluded mutes S (S.map Entry.key)).newly = []
    ∧ (lifecycleDiff excluded mutes S (S.map Entry.key)).cleared = []
    ∧ (lifecycleDiff excluded mutes S (S.map Entry.key)).pushed = []
    ∧ (lifecycleDiff excluded mutes S (S.map Entry.key)).stored
        = S.map Entry.key := by
  have happ : diffAppend excluded mutes S (S.map Entry.key)
      = (S.map Entry.key, [], []) :=
    diffAppend_all_stored excluded mutes S (S.map Entry.key)
      (fun e he => List.mem_map_of_mem _ he)
  have hrp : pyRemovePass (S.map Entry.key)
      (diffAppend excluded mutes S (S.map Entry.key)).1
      = (S.map Entry.key, []) := by
    unfold pyRemovePass
    rw [happ]
    exact pyRemoveGo_all_kept _ _ 0 _ (fun x hx => hx)
  refine ⟨?_, congrArg Prod.snd hrp, ?_, congrArg Prod.fst hrp⟩
  · show (diffAppend excluded mutes S (S.map Entry.key)).2.1 = []
    rw [happ]
  · show (diffAppend excluded mutes S (S.map Entry.key)).2.2 = []
    rw [happ]

/-- Claim C2 (violated by the code): with stored DDM errors "a" and "b" and
a cycle whose fetch reports no faults at all, both stored keys have cleared,
yet the removal loop deletes "a" and then skips "b" (it removes from the
list it is iterating), leaving the stored set at ["b"] instead of the empty
fresh set; the gauge follows the wrong list.  The loop's own comment says it
removes every error that is no longer active. -/
theorem ddm_removal_skips_consecutive_cleared :
    (ddm_thread (Except.ok [])
        { initState with ddmErrors := ["a", "b"] }).ddmErrors = ["b"]
    ∧ (ddm_thread (Except.ok [])
        { initState with ddmErrors := ["a", "b"] }).ddmTotalGauge = 1 := by
  constructor <;> rfl

/-- Claim C5 (violated by the code): the duration string "0" denotes the
integer 0, which is not a positive integer, yet the mute request does not
fail validation: str.isnumeric accepts it and a mute entry for the keyword
is created. -/
theorem mute_zero_duration_accepted :
    mute_thread "x" "0" [] = (MuteOutcome.success, ["x"])
    ∧ pyIsNumeric "0" = true := by
  constructor <;> rfl

/-- Claim C5 as amended: the mute operation reports the invalid-parameter
failure exactly when the duration string is not entirely numeric (so
non-numeric text and negative numbers fail), and on that failure the set of
active mute keywords is unchanged; a numeric but non-positive duration such
as "0" passes this validation. -/
theorem mute_validation_rejects_nonnumeric (keyword duration : String)
    (tempIgnore : List String) (h : pyIsNumeric duration = false) :
    mute_thread keyword duration tempIgnore
      = (MuteOutcome.validationError, tempIgnore) := by
  simp [mute_thread, h]

theorem mute_validation_rejects_nonnumeric_witness :
    mute_thread "x" "abc" [] = (MuteOutcome.validationError, []) :=
  mute_validation_rejects_nonnumeric "x" "abc" [] (by rfl)

/-- Claim C9: run_report composes the three per-backend sections, rendering
the literal no-errors sentence for every backend whose stored fault lists
are empty, and returns the lifecycle state exactly as it received it: the
stored fault sets, pending notifications, mute keywords and alerting flag
are all untouched. -/
theorem run_report_readonly_and_empty_sections (st : MonState) :
    (run_report st).1 = st
    ∧ (st.sageErrors = [] → (run_report st).2.sage = "No errors to report.")
    ∧ (st.ddmErrors = [] → st.ddmOffline = [] →
        (run_report st).2.ddm = "No errors to report.")
    ∧ (st.fusionErrors = [] → st.fusionOffline = [] →
        (run_report st).2.fusion = "No errors to report.") := by
  refine ⟨rfl, ?_, ?_, ?_⟩
  · intro h
    simp [run_report, get_sage_vue_status_message, h]
  · intro h1 h2
    simp [run_report, get_ddm_status_message, h1, h2]
  · intro h1 h2
    simp [run_report, get_fusion_status_message, h1, h2]

theorem run_report_readonly_and_empty_sections_witness :
    (run_report initState).1 = initState
    ∧ (run_report initState).2.sage = "No errors to report."
    ∧ (run_report initState).2.ddm = "No errors to report."
    ∧ (run_report initState).2.fusion = "No errors to report." :=
  ⟨(run_report_readonly_and_empty_sections initState).1,
   (run_report_readonly_and_empty_sections initState).2.1 rfl,
   (run_report_readonly_and_empty_sections initState).2.2.1 rfl rfl,
   (run_report_readonly_and_empty_sections initState).2.2.2 rfl rfl⟩

/-- Claim C3 (violated by the code): a cycle in which only the Fusion
database fetch raises leaves the whole state untouched — the shared
try/except around the three backend calls aborts the cycle before
sage_vue_thread and ddm_thread run — even though, run on their own with the
same healthy fetches, those two backends would have recorded a new SageVue
fault and a new DDM offline device. -/
theorem fusion_failure_blocks_other_backends :
    runCycle (Except.error ()) (Except.ok ⟨[⟨"Sys", "Red", ["f1"]⟩], []⟩)
        (Except.ok [("Dom", [⟨"dev", "ERROR", "OK", "OK", "OK"⟩])])
        initState
      = initState
    ∧ (sage_vue_thread (Except.ok ⟨[⟨"Sys", "Red", ["f1"]⟩], []⟩)
        initState).sageErrors = ["Sys - f1"]
    ∧ (ddm_thread
        (Except.ok [("Dom", [⟨"dev", "ERROR", "OK", "OK", "OK"⟩])])
        initState).ddmOffline = ["Dom - dev is offline."] := by
  refine ⟨rfl, ?_, ?_⟩ <;> rfl

/-- Claim C3 as amended: failure isolation holds only for the two backends
whose threads carry their own try/except.  A failing SageVue fetch is
absorbed inside sage_vue_thread, so the cycle still equals Fusion's update
followed by DDM's update; a failing DDM fetch is absorbed inside
ddm_thread, after Fusion and SageVue have already run; but a failing Fusion
fetch escapes to the shared per-cycle handler (the previous theorem), since
fusion_thread alone has no handler of its own. -/
theorem backend_failure_isolation_partial (fd : FusionData) (sd : SageData)
    (dd : List (String × List DdmDevice)) (st : MonState) :
    runCycle (Except.ok fd) (Except.error ()) (Except.ok dd) st
      = ddm_thread (Except.ok dd) (fusionApply fd st)
    ∧ runCycle (Except.ok fd) (Except.ok sd) (Except.error ()) st
      = ddm_thread (Except.error ())
          (sage_vue_thread (Except.ok sd) (fusionApply fd st))
    ∧ sage_vue_thread (Except.error ()) st = st :=
  ⟨rfl, rfl, rfl⟩

/-- Claim C4 (violated by the code): when the flush's outbound post raises,
the exception escapes send_alert_notif before the clear and escapes
prog_thread's loop (the call sits outside the loop's try/except), so the
poll loop terminates with the pending notification line still in the
batch: the list is not cleared, the loop does not continue, and nothing is
logged. -/
theorem send_exception_kills_poll_loop :
    pollIteration (Except.ok ⟨[], [], []⟩)
        (Except.ok ⟨[⟨"Sys", "Red", ["f1"]⟩], []⟩) (Except.ok []) true
        { initState with sendAlerts := true }
      = Except.error { initState with
          sendAlerts := true
          sageErrors := ["Sys - f1"]
          alertsNotif := ["SageVue - Sys - f1"]
          sageTotalGauge := 1 } := by
  rfl

/-- Claim C4 as amended: when the outbound post returns at all (even with a
failure status code) the pending list is cleared after the flush attempt
and the poll loop continues — note nothing is logged about a failure
response; but when the post raises, the flush fails with the pending list
uncleared and the exception is fatal to the poll loop. -/
theorem flush_clears_or_raises :
    (∀ (ff : Except Unit FusionData) (sf : Except Unit SageData)
        (df : Except Unit (List (String × List DdmDevice))) (st : MonState),
      pollIteration ff sf df false st
        = Except.ok { runCycle ff sf df st with alertsNotif := [] })
    ∧ (∀ (a : Bool) (n : List String), a = true → n ≠ [] →
        send_alert_notif true a n = Except.error ()) := by
  constructor
  · intro ff sf df st
    have hsend : ∀ (a : Bool) (n : List String),
        send_alert_notif false a n = Except.ok [] := by
      intro a n
      unfold send_alert_notif
      split <;> rfl
    unfold pollIteration
    rw [hsend]
  · intro a n ha hn
    subst ha
    have hlen : n.length > 0 := List.length_pos.mpr hn
    simp [send_alert_notif, hlen]

theorem flush_clears_or_raises_witness :
    pollIteration (Except.ok ⟨[], [], []⟩) (Except.ok ⟨[], []⟩)
        (Except.ok []) false initState
      = Except.ok { runCycle (Except.ok ⟨[], [], []⟩) (Except.ok ⟨[], []⟩)
          (Except.ok []) initState with alertsNotif := [] }
    ∧ send_alert_notif true true ["x"] = Except.error () :=
  ⟨flush_clears_or_raises.1 (Except.ok ⟨[], [], []⟩) (Except.ok ⟨[], []⟩)
      (Except.ok []) initState,
   flush_clears_or_raises.2 true ["x"] rfl (by decide)⟩

theorem sageEntries_wf (systems : List SageSystem) :
    ∀ x ∈ sageEntries systems, keyedEntryWf "SageVue" x := by
  intro x hx
  unfold sageEntries at hx
  rcases List.mem_flatMap.mp hx with ⟨s, hs, hxs⟩
  split at hxs
  · simp at hxs
  · rcases List.mem_map.mp hxs with ⟨m, hm, rfl⟩
    exact ⟨rfl, rfl⟩

/-- Claim C8: a fault on a non-Green SageVue system whose message contains
DAN1 or NTP (and whose key is carried by no other, non-excluded fault) is
excluded from the notifiable set — its key never enters the stored error
list and its line is never pushed — while the missing-devices gauge is set
to the length of the raw Errors array of the separate devices endpoint,
untouched by the exclusion. -/
theorem sagevue_exclusion_and_missing_gauge (d : SageData) (st : MonState)
    (e : Entry String)
    (hmem : e ∈ sageEntries d.systems)
    (hexcl : sageExcluded e = true)
    (hcol : ∀ x ∈ sageEntries d.systems, x.key = e.key →
      sageExcluded x = true)
    (hst : e.key ∉ st.sageErrors) :
    e.key ∉ (sage_vue_thread (Except.ok d) st).sageErrors
    ∧ (sage_vue_thread (Except.ok d) st).alertsNotif
        = st.alertsNotif ++ (lifecycleDiff sageExcluded st.mutes
            (sageEntries d.systems) st.sageErrors).pushed
    ∧ ("SageVue" ++ " - " ++ e.key) ∉ (lifecycleDiff sageExcluded st.mutes
        (sageEntries d.systems) st.sageErrors).pushed
    ∧ (sage_vue_thread (Except.ok d) st).sageMissingGauge
        = d.rawDeviceErrors.length := by
  refine ⟨?_, rfl, ?_, rfl⟩
  · intro hin
    have hsub : e.key ∈ (diffAppend sageExcluded st.mutes
        (sageEntries d.systems) st.sageErrors).1 :=
      pyRemoveGo_subset _ _ 0 _ e.key hin
    rw [diffAppend_stored_eq] at hsub
    rcases List.mem_append.mp hsub with h1 | h1
    · exact hst h1
    · rcases List.mem_map.mp h1 with ⟨x, hx, hxk⟩
      have hxex : sageExcluded x = false :=
        diffAppend_newly_not_excluded sageExcluded st.mutes
          (sageEntries d.systems) st.sageErrors x hx
      have hxc : x ∈ sageEntries d.systems :=
        diffAppend_newly_mem sageExcluded st.mutes
          (sageEntries d.systems) st.sageErrors x hx
      rw [hcol x hxc hxk] at hxex
      cases hxex
  · intro hpush
    rcases diffAppend_pushed_mem sageExcluded st.mutes
        (sageEntries d.systems) st.sageErrors _ hpush with ⟨x, hx, hline, _⟩
    have hxc : x ∈ sageEntries d.systems :=
      diffAppend_newly_mem sageExcluded st.mutes
        (sageEntries d.systems) st.sageErrors x hx
    rw [entryLine_of_wf "SageVue" x (sageEntries_wf d.systems x hxc)]
      at hline
    have hkey : e.key = x.key := string_append_cancel_left hline
    have hxex : sageExcluded x = false :=
      diffAppend_newly_not_excluded sageExcluded st.mutes
        (sageEntries d.systems) st.sageErrors x hx
    rw [hcol x hxc hkey.symm] at hxex
    cases hxex

theorem sagevue_exclusion_and_missing_gauge_witness :
    (Entry.mk "Sys - DAN1 mute active" "SageVue" "Sys" "DAN1 mute active").key
      ∉ (sage_vue_thread
          (Except.ok ⟨[⟨"Sys", "Red", ["DAN1 mute active"]⟩], ["e1", "e2"]⟩)
          initState).sageErrors
    ∧ (sage_vue_thread
        (Except.ok ⟨[⟨"Sys", "Red", ["DAN1 mute active"]⟩], ["e1", "e2"]⟩)
        initState).sageMissingGauge = 2 :=
  ⟨(sagevue_exclusion_and_missing_gauge
      ⟨[⟨"Sys", "Red", ["DAN1 mute active"]⟩], ["e1", "e2"]⟩ initState
      (Entry.mk "Sys - DAN1 mute active" "SageVue" "Sys" "DAN1 mute active")
      (by decide) (by decide) (by decide) (by decide)).1,
   (sagevue_exclusion_and_missing_gauge
      ⟨[⟨"Sys", "Red", ["DAN1 mute active"]⟩], ["e1", "e2"]⟩ initState
      (Entry.mk "Sys - DAN1 mute active" "SageVue" "Sys" "DAN1 mute active")
      (by decide) (by decide) (by decide) (by decide)).2.2.2⟩

/-- Claim C10: a fault first reported in a cycle during which a mute
keyword occurs in its device name or message (and in that of every fault
sharing its key) is still added to the stored fault list, but no line for
it enters the pending batch that cycle — and since newly-active detection
keys on stored-list membership, no later cycle in which the fault stays
continuously active ever pushes a line for it, even after the mute list no
longer matches anything. -/
theorem muted_new_fault_never_notified (stored0 : List String)
    (c0 : List (Entry String)) (m0 : List String)
    (cycles : List (List (Entry String) × List String)) (e : Entry String)
    (hwf0 : ∀ x ∈ c0, keyedEntryWf "DDM" x)
    (hwf : ∀ p ∈ cycles, ∀ x ∈ p.1, keyedEntryWf "DDM" x)
    (he : e ∈ c0) (hnew : e.key ∉ stored0)
    (hblock : ∀ x ∈ c0, x.key = e.key → ¬ notMuted m0 x.device x.message)
    (hactive : ∀ p ∈ cycles, e.key ∈ p.1.map Entry.key) :
    e.key ∈ (lifecycleDiff (fun _ => false) m0 c0 stored0).stored
    ∧ ("DDM" ++ " - " ++ e.key)
        ∉ (lifecycleDiff (fun _ => false) m0 c0 stored0).pushed
    ∧ ("DDM" ++ " - " ++ e.key)
        ∉ (runDiffCycles (fun _ => false) cycles
            (lifecycleDiff (fun _ => false) m0 c0 stored0).stored).2 := by
  have hin : e.key ∈ (lifecycleDiff (fun _ => false) m0 c0 stored0).stored :=
    lifecycleDiff_adds_key (fun _ => false) m0 c0 stored0 e.key
      (fun _ _ => rfl) (List.mem_map_of_mem _ he)
  refine ⟨hin, ?_, ?_⟩
  · exact lifecycleDiff_no_line_of_blocked "DDM" (fun _ => false) m0 c0
      stored0 e.key hwf0 hblock
  · exact (runDiffCycles_never_key "DDM" (fun _ => false) cycles
      (lifecycleDiff (fun _ => false) m0 c0 stored0).stored e.key hin hwf
      hactive).2

theorem muted_new_fault_never_notified_witness :
    (Entry.mk "dom - dev is offline." "DDM" "dom" "dev is offline.").key
      ∈ (lifecycleDiff (fun _ => false) ["dev"]
          [Entry.mk "dom - dev is offline." "DDM" "dom" "dev is offline."]
          []).stored
    ∧ ("DDM" ++ " - "
        ++ (Entry.mk "dom - dev is offline." "DDM" "dom"
            "dev is offline.").key)
      ∉ (runDiffCycles (fun _ => false)
          [([Entry.mk "dom - dev is offline." "DDM" "dom"
              "dev is offline."], [])]
          (lifecycleDiff (fun _ => false) ["dev"]
            [Entry.mk "dom - dev is offline." "DDM" "dom"
              "dev is offline."] []).stored).2 :=
  ⟨(muted_new_fault_never_notified []
      [Entry.mk "dom - dev is offline." "DDM" "dom" "dev is offline."]
      ["dev"]
      [([Entry.mk "dom - dev is offline." "DDM" "dom" "dev is offline."],
        [])]
      (Entry.mk "dom - dev is offline." "DDM" "dom" "dev is offline.")
      (by decide) (by decide) (by decide) (by decide) (by decide)
      (by decide)).1,
   (muted_new_fault_never_notified []
      [Entry.mk "dom - dev is offline." "DDM" "dom" "dev is offline."]
      ["dev"]
      [([Entry.mk "dom - dev is offline." "DDM" "dom" "dev is offline."],
        [])]
      (Entry.mk "dom - dev is offline." "DDM" "dom" "dev is offline.")
      (by decide) (by decide) (by decide) (by decide) (by decide)
      (by decide)).2.2⟩

